import Mathlib

/-!
Shallow embedding of `src/src-tauri/src/main.rs` from the repository
`admiralsuez/shakshuka-1`.

The source is a Tauri application bootstrap: it builds a `tauri::Builder`
with default settings, registers the autostart plugin (with
`MacosLauncher::LaunchAgent` and `Some(true)`), registers the filesystem
plugin (no arguments), installs a setup callback that does nothing and
returns `Ok(())`, runs the event loop on the generated context, and calls
`.expect("error while running tauri application")` on the result.  Line 1
of the file carries
`#![cfg_attr(not(debug_assertions), windows_subsystem = "windows")]`.

The Tauri framework itself is external to the repository; its event loop
outcome and the application handle it constructs are inputs of the model.
Builder calls are embedded as functions that also record an event trace,
so that the order of the call sequence is a provable property.
-/

namespace Shakshuka

/-- The macOS launcher variants of the external autostart plugin
(`tauri_plugin_autostart::MacosLauncher`); the source names
`MacosLauncher::LaunchAgent`. -/
inductive MacosLauncher where
  | LaunchAgent
  | AppleScript
  deriving DecidableEq, Repr, BEq

/-- The two arguments passed to `tauri_plugin_autostart::init` in the
source: the macOS launcher and the `Option<bool>` second argument, which
the source comments call "enable at install/update by default". -/
structure AutostartConfig where
  macosLauncher : MacosLauncher
  enabledByDefault : Option Bool
  deriving DecidableEq, Repr, BEq

/-- Configuration of the filesystem plugin.  `tauri_plugin_fs::init()` is
called with no arguments in the source, so the configuration carries no
fields. -/
structure FsConfig where
  deriving DecidableEq, Repr, BEq

/-- A plugin registration as it appears in the source: either the
autostart plugin with its configuration, or the filesystem plugin. -/
inductive Plugin where
  | autostart (cfg : AutostartConfig)
  | fs (cfg : FsConfig)
  deriving DecidableEq, Repr, BEq

/-- Steps of the bootstrap call sequence in `main`, recorded as a trace. -/
inductive InitEvent where
  | builderDefault
  | registerPlugin (p : Plugin)
  | installSetup
  | startEventLoop
  deriving DecidableEq, Repr, BEq

/-- The generated application context (`tauri::generate_context!()`): an
opaque build-time bundle; no field of it is inspected by the source. -/
structure Context where
  deriving DecidableEq, Repr, BEq

/-- Embedding of `tauri::Builder` as used by the source: the registered
plugins in order, the installed setup hook (which receives the mutable
application handle and returns it together with a `Result<(), _>`), and
the trace of bootstrap events performed so far.  `App` is the opaque
application-handle type of the framework. -/
structure Builder (App : Type) where
  plugins : List Plugin
  setupHook : Option (App → App × Except String Unit)
  events : List InitEvent

/-- `tauri::Builder::default()`: no plugins, no setup hook. -/
def Builder.defaultB (App : Type) : Builder App :=
  { plugins := [], setupHook := none, events := [InitEvent.builderDefault] }

/-- `.plugin(p)`: append a plugin registration. -/
def Builder.plugin {App : Type} (b : Builder App) (p : Plugin) : Builder App :=
  { b with plugins := b.plugins ++ [p],
           events := b.events ++ [InitEvent.registerPlugin p] }

/-- `.setup(hook)`: install the setup callback. -/
def Builder.setup {App : Type} (b : Builder App)
    (hook : App → App × Except String Unit) : Builder App :=
  { b with setupHook := some hook,
           events := b.events ++ [InitEvent.installSetup] }

/-- Modelled from the spec: `tauri::Builder::run` is framework code absent
from `src/`.  Per the spec, it runs the setup callback once after plugin
registration and before the event loop, then blocks in the event loop
until normal termination or failure.  The handle `app0` constructed by the
framework and the event loop result `loopResult` are external inputs; the
function returns the `Result` seen by the caller together with the
completed event trace. -/
def Builder.run {App : Type} (b : Builder App) (_ctx : Context) (app0 : App)
    (loopResult : Except String Unit) : Except String Unit × List InitEvent :=
  match b.setupHook with
  | none => (loopResult, b.events ++ [InitEvent.startEventLoop])
  | some hook =>
    match (hook app0).2 with
    | Except.error e => (Except.error e, b.events)
    | Except.ok _ => (loopResult, b.events ++ [InitEvent.startEventLoop])

/-- Outcome of the process: a clean exit with a status code, or a panic
with a message (Rust terminates a panicking main thread with the nonzero
status 101). -/
inductive ProcessOutcome where
  | exited (code : Nat)
  | panicked (msg : String)
  deriving DecidableEq, Repr, BEq

/-- The exit status of the process for each outcome; a Rust panic in
`main` terminates the process with status 101. -/
def ProcessOutcome.exitStatus : ProcessOutcome → Nat
  | ProcessOutcome.exited code => code
  | ProcessOutcome.panicked _ => 101

/-- Rust `Result::expect(msg)` at the end of `main`: on `Ok` the program
falls off the end of `main` and the process exits with status 0; on
`Err(e)` it panics with the message `"{msg}: {e:?}"` (the error is
represented here by its debug text). -/
def runExpect (r : Except String Unit) (msg : String) : ProcessOutcome :=
  match r with
  | Except.ok _ => ProcessOutcome.exited 0
  | Except.error e => ProcessOutcome.panicked (msg ++ ": " ++ e)

/-- The setup closure from the source: `|_app| { Ok(()) }`.  It ignores
the handle, changes nothing, and returns `Ok(())`. -/
def setupCallback {App : Type} : App → App × Except String Unit :=
  fun app => (app, Except.ok ())

/-- The autostart configuration written in the source:
`MacosLauncher::LaunchAgent` and `Some(true)`. -/
def autostartArgs : AutostartConfig :=
  { macosLauncher := MacosLauncher.LaunchAgent, enabledByDefault := some true }

/-- The builder chain of `main` before `.run`: default builder, autostart
plugin, filesystem plugin, setup callback, in source order. -/
def mainBuilder (App : Type) : Builder App :=
  (((Builder.defaultB App).plugin
      (Plugin.autostart autostartArgs)).plugin
      (Plugin.fs {})).setup setupCallback

/-- The `expect` message literal of the source. -/
def expectLiteral : String := "error while running tauri application"

/-- Embedding of `fn main()`: build, run on the generated context, and
apply `.expect(expectLiteral)` to the result.  External inputs: the
application handle constructed by the framework and the event loop
result.  Returns the process outcome and the bootstrap event trace. -/
def mainRun (App : Type) (app0 : App) (loopResult : Except String Unit) :
    ProcessOutcome × List InitEvent :=
  let res := (mainBuilder App).run {} app0 loopResult
  (runExpect res.1 expectLiteral, res.2)

/-- Build modes distinguished by `debug_assertions`. -/
inductive BuildMode where
  | debugBuild
  | releaseBuild
  deriving DecidableEq, Repr, BEq

/-- The subsystem the compiled executable declares to the host OS. -/
inductive HostSubsystem where
  | console
  | windowsGui
  deriving DecidableEq, Repr, BEq

/-- Embedding of line 1 of the source,
`#![cfg_attr(not(debug_assertions), windows_subsystem = "windows")]`:
when debug assertions are off (release build) the attribute
`windows_subsystem = "windows"` applies and the console window is
suppressed; in a debug build it does not apply, leaving the default
console subsystem.  A pure function of the build mode alone: no runtime
input occurs. -/
def compiledSubsystem : BuildMode → HostSubsystem
  | BuildMode.debugBuild => HostSubsystem.console
  | BuildMode.releaseBuild => HostSubsystem.windowsGui

/-- Modelled from the spec: the autostart plugin is external to the
repository; per the spec, registering it with the default-enabled flag set
to true makes a fresh install register the application to start at user
login without user action. -/
def freshInstallAutostarts (cfg : AutostartConfig) : Prop :=
  cfg.enabledByDefault = some true

instance (cfg : AutostartConfig) : Decidable (freshInstallAutostarts cfg) := by
  unfold freshInstallAutostarts
  infer_instance

/-- The full bootstrap trace of `main`, written out. -/
def expectedTrace : List InitEvent :=
  [InitEvent.builderDefault,
   InitEvent.registerPlugin (Plugin.autostart autostartArgs),
   InitEvent.registerPlugin (Plugin.fs {}),
   InitEvent.installSetup,
   InitEvent.startEventLoop]

/-- A string with a nonempty left part is nonempty. -/
theorem left_append_ne_empty (s t : String) (hs : s.length ≠ 0) : s ++ t ≠ "" := by
  intro h
  have hl := congrArg String.length h
  rw [String.length_append, String.length_empty] at hl
  omega

/-- C1: if the event loop run returns an error, the process terminates by
panic with a non-empty diagnostic message, its exit status is nonzero, and
the run is not retried: the event loop is started exactly once in the
bootstrap trace. -/
theorem run_error_terminates_fatally (App : Type) (app0 : App) (e : String) :
    (∃ msg, (mainRun App app0 (Except.error e)).1 = ProcessOutcome.panicked msg ∧
        msg ≠ "") ∧
    ((mainRun App app0 (Except.error e)).1).exitStatus ≠ 0 ∧
    List.count InitEvent.startEventLoop (mainRun App app0 (Except.error e)).2 = 1 := by
  refine ⟨⟨(expectLiteral ++ ": ") ++ e, rfl, ?_⟩, ?_, ?_⟩
  · exact left_append_ne_empty _ _ (by decide)
  · have h101 : ((mainRun App app0 (Except.error e)).1).exitStatus = 101 := rfl
    rw [h101]
    omega
  · have htr : (mainRun App app0 (Except.error e)).2 = expectedTrace := rfl
    rw [htr]
    decide

/-- C2: the autostart plugin is registered with
`MacosLauncher::LaunchAgent` and the enabled-by-default flag `Some(true)`,
and (per the spec model of the external plugin) this makes a fresh
install register the application to start at user login. -/
theorem autostart_registered_launchagent_enabled (App : Type) :
    (mainBuilder App).plugins =
      [Plugin.autostart autostartArgs, Plugin.fs {}] ∧
    autostartArgs.macosLauncher = MacosLauncher.LaunchAgent ∧
    autostartArgs.enabledByDefault = some true ∧
    freshInstallAutostarts autostartArgs :=
  ⟨rfl, rfl, rfl, rfl⟩

/-- C3: the installed setup callback is exactly `setupCallback`, and it
returns `Ok(())` for every application handle. -/
theorem setup_returns_ok (App : Type) :
    (mainBuilder App).setupHook = some setupCallback ∧
    ∀ app : App, (setupCallback app).2 = Except.ok () :=
  ⟨rfl, fun _ => rfl⟩

/-- C4: the setup hook performs no action: for every handle it returns the
handle unchanged together with `Ok(())`, and applying its state transform
twice equals applying it once (idempotent no-op); as a total pure
function it never blocks. -/
theorem setup_is_noop (App : Type) :
    (∀ app : App, setupCallback app = (app, Except.ok ())) ∧
    (∀ app : App, (setupCallback (setupCallback app).1).1 = (setupCallback app).1) :=
  ⟨fun _ => rfl, fun _ => rfl⟩

/-- C5: the filesystem plugin is registered, and its configuration type
has no fields, so every configuration equals the default empty one:
defaults only, no custom options. -/
theorem fs_registered_with_defaults (App : Type) :
    Plugin.fs {} ∈ (mainBuilder App).plugins ∧
    ∀ c c' : FsConfig, c = c' := by
  constructor
  · have h : (mainBuilder App).plugins =
        [Plugin.autostart autostartArgs, Plugin.fs {}] := rfl
    rw [h]
    simp
  · intro c c'
    cases c
    cases c'
    rfl

/-- C6: when the event loop run returns success, the process exits with
status 0, and no bootstrap event follows the event loop start: starting
the event loop is the last recorded action. -/
theorem run_ok_exits_zero (App : Type) (app0 : App) :
    (mainRun App app0 (Except.ok ())).1 = ProcessOutcome.exited 0 ∧
    ((mainRun App app0 (Except.ok ())).1).exitStatus = 0 ∧
    ((mainRun App app0 (Except.ok ())).2).getLast? = some InitEvent.startEventLoop :=
  ⟨rfl, rfl, rfl⟩

/-- C7: whatever the framework handle and event loop result, the bootstrap
trace is exactly: default builder, autostart plugin registration,
filesystem plugin registration, setup installation, event loop start —
each once, in that order, with the event loop started last. -/
theorem bootstrap_strictly_sequential (App : Type) (app0 : App)
    (loopResult : Except String Unit) :
    (mainRun App app0 loopResult).2 = expectedTrace ∧
    expectedTrace =
      [InitEvent.builderDefault,
       InitEvent.registerPlugin (Plugin.autostart autostartArgs),
       InitEvent.registerPlugin (Plugin.fs {}),
       InitEvent.installSetup,
       InitEvent.startEventLoop] ∧
    expectedTrace.getLast? = some InitEvent.startEventLoop :=
  ⟨rfl, rfl, rfl⟩

/-- C8: the compiled subsystem is a function of the build mode alone: a
release build (debug assertions off) declares the windows GUI subsystem,
suppressing the console window, while a debug build keeps the console
subsystem. -/
theorem release_build_suppresses_console :
    compiledSubsystem BuildMode.releaseBuild = HostSubsystem.windowsGui ∧
    compiledSubsystem BuildMode.debugBuild = HostSubsystem.console :=
  ⟨rfl, rfl⟩

/-- C9: whenever the run result is an error, the panic message is the
fixed literal "error while running tauri application" followed by the
underlying framework error, for every error. -/
theorem panic_message_has_fixed_literal (App : Type) (app0 : App) (e : String) :
    (mainRun App app0 (Except.error e)).1 =
      ProcessOutcome.panicked ((expectLiteral ++ ": ") ++ e) ∧
    expectLiteral = "error while running tauri application" :=
  ⟨rfl, rfl⟩

/-- C10: the setup callback result is independent of the handle it
receives, even across distinct handle types: no information from the
handle flows into its output. -/
theorem setup_result_handle_independent (A B : Type) (a : A) (b : B) :
    (setupCallback a).2 = (setupCallback b).2 :=
  rfl

end Shakshuka
